import Mathlib

/-!
Shallow embedding of `src/dtlssrtptransport.cpp` (rtc::DtlsSrtpTransport).

Bytes are modelled as `Nat`, packets as `List Nat`. The libsrtp engine is
external to the repository and is treated as an abstract, state-passing
structure of functions (`SrtpEngine`), as the spec treats it ("a trusted,
already-correct crypto engine"). The transport functions `sendMedia`,
`incoming` and `postHandshake` are translated line by line from the source.
C++ exceptions are modelled as `Except.error`; observable side effects
(the DTLS bypass, the SRTP receive callback, the downstream send, warning
logs) are modelled as an emitted event list.
-/

namespace DtlsSrtp

/-- Mirror of libsrtp `srtp_err_status_t`: `ok` (0), `srtp_err_status_replay_fail`,
and any other nonzero status. -/
inductive srtp_err_status where
  | ok
  | replay_fail
  | fail (code : Nat)
  deriving DecidableEq, Repr

/-- Result of an in-place libsrtp call `srtp_protect` / `srtp_unprotect`:
the returned status, the session state after the call (the C session object is
mutated in place), the buffer contents after the call, and the value left in
the in/out `size` argument. -/
structure SrtpResult (σ : Type) where
  status : srtp_err_status
  sess : σ
  buf : List Nat
  len : Nat
  deriving Repr

/-- Mirror of the `ssrc.type` field of `srtp_policy_t` as used by the source:
`ssrc_any_inbound` or `ssrc_any_outbound` (wildcard stream-id policies). -/
inductive SsrcType where
  | anyInbound
  | anyOutbound
  deriving DecidableEq, Repr

/-- The parts of `srtp_policy_t` the source sets and that matter here:
the ssrc wildcard type and the 30-byte session key handed to `srtp_add_stream`.
(The cipher-suite fields are fixed constants in the source:
`srtp_crypto_policy_set_aes_cm_128_hmac_sha1_80` on both rtp and rtcp.) -/
structure srtp_policy where
  ssrcType : SsrcType
  key : List Nat
  deriving DecidableEq, Repr

/-- Abstract libsrtp engine over session states `σ`: `srtp_protect`,
`srtp_unprotect` and `srtp_add_stream` as pure state-passing functions.
`protect` takes the session, the buffer (already resized to hold the trailer)
and the original packet size; `unprotect` takes the session and the packet. -/
structure SrtpEngine (σ : Type) where
  protect : σ → List Nat → Nat → SrtpResult σ
  unprotect : σ → List Nat → SrtpResult σ
  add_stream : σ → srtp_policy → srtp_err_status × σ

/-- State of a `DtlsSrtpTransport`: the `mInitDone` flag (the spec's
`keysReady`), the two SRTP sessions `mSrtpIn` / `mSrtpOut`, and the DTLS role
flag `mIsClient` (the client is the initiator). -/
structure Transport (σ : Type) where
  mInitDone : Bool
  mSrtpIn : σ
  mSrtpOut : σ
  mIsClient : Bool
  deriving DecidableEq, Repr

/-- Observable effects of a transport call: routing a packet to the DTLS
layer (`DtlsTransport::incoming`), delivering decrypted media
(`mSrtpRecvCallback`), sending a protected packet downstream (`outgoing`),
and a warning log line (`PLOG_WARNING`). -/
inductive Event where
  | dtlsIncoming (m : List Nat)
  | srtpRecvCallback (m : List Nat)
  | outgoingSend (m : List Nat)
  | logWarning
  deriving DecidableEq, Repr

/-- The exceptions the source throws from `sendMedia` and `postHandshake`. -/
inductive DtlsError where
  | srtpReplay
  | srtpProtect (code : Nat)
  | srtpExport
  | keyLenBad (n : Nat)
  | saltLenBad (n : Nat)
  | addStreamIn (err : srtp_err_status)
  | addStreamOut (err : srtp_err_status)
  deriving DecidableEq, Repr

/-- libsrtp constant: AES-128 master key length (16 bytes). -/
def SRTP_AES_128_KEY_LEN : Nat := 16

/-- libsrtp constant: master salt length (14 bytes). -/
def SRTP_SALT_LEN : Nat := 14

/-- libsrtp constant: key-with-salt length, 16 + 14 = 30 bytes. -/
def SRTP_AES_ICM_128_KEY_LEN_WSALT : Nat := SRTP_AES_128_KEY_LEN + SRTP_SALT_LEN

/-- libsrtp constant: worst-case trailer (auth tag + MKI) reserved by
`sendMedia` before calling `srtp_protect`. -/
def SRTP_MAX_TRAILER_LEN : Nat := 144

/-- `materialLen` of `postHandshake`: `SRTP_AES_ICM_128_KEY_LEN_WSALT * 2`. -/
def materialLen : Nat := SRTP_AES_ICM_128_KEY_LEN_WSALT * 2

/-- `std::vector`-style `resize`: truncate to `n`, or extend with zero bytes. -/
def resizeMsg (m : List Nat) (n : Nat) : List Nat :=
  m.take n ++ List.replicate (n - m.length) 0

/-- OpenSSL branch, line `clientKey = material;`: bytes [0,16). -/
def clientKeyOf (material : List Nat) : List Nat :=
  material.take SRTP_AES_128_KEY_LEN

/-- OpenSSL branch, line `clientSalt = clientKey + SRTP_AES_128_KEY_LEN;`:
bytes [16,30) of the exported material. -/
def clientSaltOf (material : List Nat) : List Nat :=
  (material.drop SRTP_AES_128_KEY_LEN).take SRTP_SALT_LEN

/-- OpenSSL branch, line `serverKey = material + SRTP_AES_ICM_128_KEY_LEN_WSALT;`:
bytes [30,46) of the exported material. -/
def serverKeyOf (material : List Nat) : List Nat :=
  (material.drop SRTP_AES_ICM_128_KEY_LEN_WSALT).take SRTP_AES_128_KEY_LEN

/-- OpenSSL branch, line `serverSalt = serverKey + SRTP_AES_128_KEY_LEN;`:
bytes [46,60) of the exported material. -/
def serverSaltOf (material : List Nat) : List Nat :=
  (material.drop (SRTP_AES_ICM_128_KEY_LEN_WSALT + SRTP_AES_128_KEY_LEN)).take SRTP_SALT_LEN

/-- The two `memcpy`s building `clientSessionKey`: client key then client salt. -/
def clientSessionKey (material : List Nat) : List Nat :=
  clientKeyOf material ++ clientSaltOf material

/-- The two `memcpy`s building `serverSessionKey`: server key then server salt. -/
def serverSessionKey (material : List Nat) : List Nat :=
  serverKeyOf material ++ serverSaltOf material

/-- Line `inbound.key = mIsClient ? serverSessionKey : clientSessionKey;`. -/
def inboundSessionKey (mIsClient : Bool) (material : List Nat) : List Nat :=
  if mIsClient then serverSessionKey material else clientSessionKey material

/-- Line `outbound.key = mIsClient ? clientSessionKey : serverSessionKey;`. -/
def outboundSessionKey (mIsClient : Bool) (material : List Nat) : List Nat :=
  if mIsClient then clientSessionKey material else serverSessionKey material

/-- Follows the spec's words (not the source): the canonical RFC 5764
extractor layout `initiator_key(16) | responder_key(16) | initiator_salt(14)
| responder_salt(14)`, with `initiatorSessionKey = initiator_key ++ initiator_salt`.
Used only to compare the source's slicing against the claimed layout. -/
def specInitiatorSessionKey (material : List Nat) : List Nat :=
  material.take 16 ++ ((material.drop 32).take 14)

/-- Follows the spec's words (not the source): responder session key under the
canonical layout, `responder_key (bytes [16,32)) ++ responder_salt (bytes [46,60))`. -/
def specResponderSessionKey (material : List Nat) : List Nat :=
  ((material.drop 16).take 16) ++ ((material.drop 46).take 14)

/-- `DtlsSrtpTransport::sendMedia`. Returns `Except.error` where the source
throws; otherwise the transport state after the call, the emitted events, and
the `bool` return value. The null-pointer check, the `mInitDone` guard, the
trailer-reserving resize, `srtp_protect`, the truncating resize and
`outgoing(message)` are translated in source order. -/
def sendMedia {σ : Type} (E : SrtpEngine σ) (t : Transport σ)
    (message : Option (List Nat)) :
    Except DtlsError (Transport σ × List Event × Bool) :=
  match message with
  | none => .ok (t, [], false)
  | some msg =>
    if !t.mInitDone then
      .ok (t, [.logWarning], false)
    else
      let size := msg.length
      let buf := resizeMsg msg (size + SRTP_MAX_TRAILER_LEN)
      let r := E.protect t.mSrtpOut buf size
      match r.status with
      | .ok => .ok ({ t with mSrtpOut := r.sess },
                    [.outgoingSend (resizeMsg r.buf r.len)], true)
      | .replay_fail => .error .srtpReplay
      | .fail code => .error (.srtpProtect code)

/-- The SRTP media branch of `DtlsSrtpTransport::incoming` (first byte in
[20,63]): `srtp_unprotect`, then on success resize to the returned length and
invoke `mSrtpRecvCallback`; on failure log a warning and return. The in-place
session mutation is kept in both cases. -/
def srtpRecvBranch {σ : Type} (E : SrtpEngine σ) (t : Transport σ)
    (message : List Nat) : Transport σ × List Event :=
  let r := E.unprotect t.mSrtpIn message
  match r.status with
  | .ok => ({ t with mSrtpIn := r.sess },
            [.srtpRecvCallback (resizeMsg r.buf r.len)])
  | _ => ({ t with mSrtpIn := r.sess }, [.logWarning])

/-- `DtlsSrtpTransport::incoming`: bypass to `DtlsTransport::incoming` while
`mInitDone` is false; drop empty packets; demultiplex on the first byte per
RFC 5764 5.1.2 ([128,191] DTLS, [20,63] SRTP, otherwise drop with a warning). -/
def incoming {σ : Type} (E : SrtpEngine σ) (t : Transport σ)
    (message : List Nat) : Transport σ × List Event :=
  if !t.mInitDone then
    (t, [.dtlsIncoming message])
  else
    match message with
    | [] => (t, [])
    | value :: _ =>
      if 128 ≤ value ∧ value ≤ 191 then
        (t, [.dtlsIncoming message])
      else if 20 ≤ value ∧ value ≤ 63 then
        srtpRecvBranch E t message
      else
        (t, [.logWarning])

/-- `DtlsSrtpTransport::postHandshake`, OpenSSL branch. `exportKM` models
`SSL_export_keying_material`, taking the label, the (absent) context and the
output length. The early `mInitDone` return, the export call with label
`EXTRACTOR-dtls_srtp`, no context and `materialLen` bytes, the key slicing,
the two `srtp_add_stream` calls, and the final `mInitDone = true` follow the
source order. -/
def postHandshake {σ : Type} (E : SrtpEngine σ)
    (exportKM : String → Option (List Nat) → Nat → Except Unit (List Nat))
    (t : Transport σ) : Except DtlsError (Transport σ) :=
  if t.mInitDone then
    .ok t
  else
    match exportKM "EXTRACTOR-dtls_srtp" none materialLen with
    | .error _ => .error .srtpExport
    | .ok material =>
      let inbound : srtp_policy :=
        { ssrcType := .anyInbound, key := inboundSessionKey t.mIsClient material }
      match E.add_stream t.mSrtpIn inbound with
      | (srtp_err_status.ok, sIn) =>
        let outbound : srtp_policy :=
          { ssrcType := .anyOutbound, key := outboundSessionKey t.mIsClient material }
        match E.add_stream t.mSrtpOut outbound with
        | (srtp_err_status.ok, sOut) =>
          .ok { t with mInitDone := true, mSrtpIn := sIn, mSrtpOut := sOut }
        | (err, _) => .error (.addStreamOut err)
      | (err, _) => .error (.addStreamIn err)

/-- `DtlsSrtpTransport::postHandshake`, GnuTLS branch. `getKeys` models
`gnutls_srtp_get_keys` returning the four datums (client key, client salt,
server key, server salt). The length checks against `SRTP_AES_128_KEY_LEN`
and `SRTP_SALT_LEN` throw `logic_error`s in the source; the session keys are
then assembled and the streams added exactly as in the OpenSSL branch. -/
def postHandshakeGnutls {σ : Type} (E : SrtpEngine σ)
    (getKeys : Except Unit (List Nat × List Nat × List Nat × List Nat))
    (t : Transport σ) : Except DtlsError (Transport σ) :=
  if t.mInitDone then
    .ok t
  else
    match getKeys with
    | .error _ => .error .srtpExport
    | .ok (clientKey, clientSalt, serverKey, serverSalt) =>
      if clientKey.length ≠ SRTP_AES_128_KEY_LEN then .error (.keyLenBad clientKey.length)
      else if clientSalt.length ≠ SRTP_SALT_LEN then .error (.saltLenBad clientSalt.length)
      else if serverKey.length ≠ SRTP_AES_128_KEY_LEN then .error (.keyLenBad serverKey.length)
      else if serverSalt.length ≠ SRTP_SALT_LEN then .error (.saltLenBad serverSalt.length)
      else
        let cks := clientKey ++ clientSalt
        let sks := serverKey ++ serverSalt
        let inbound : srtp_policy :=
          { ssrcType := .anyInbound, key := if t.mIsClient then sks else cks }
        match E.add_stream t.mSrtpIn inbound with
        | (srtp_err_status.ok, sIn) =>
          let outbound : srtp_policy :=
            { ssrcType := .anyOutbound, key := if t.mIsClient then cks else sks }
          match E.add_stream t.mSrtpOut outbound with
          | (srtp_err_status.ok, sOut) =>
            .ok { t with mInitDone := true, mSrtpIn := sIn, mSrtpOut := sOut }
          | (err, _) => .error (.addStreamOut err)
        | (err, _) => .error (.addStreamIn err)

/-! Concrete engines and export functions used by the witness theorems. -/

/-- Trivial engine over `Unit` sessions: every call succeeds; `protect`
reports a final length of `size + 10` (a 10-byte trailer), `unprotect`
reports the full buffer length. -/
def unitEngine : SrtpEngine Unit where
  protect := fun _ buf size => ⟨.ok, (), buf, size + 10⟩
  unprotect := fun _ buf => ⟨.ok, (), buf, buf.length⟩
  add_stream := fun _ _ => (.ok, ())

/-- Engine over `Nat` sessions counting `add_stream` calls; used to observe
that each session receives exactly one stream. -/
def countEngine : SrtpEngine Nat where
  protect := fun s buf size => ⟨.ok, s, buf, size⟩
  unprotect := fun s buf => ⟨.ok, s, buf, buf.length⟩
  add_stream := fun s _ => (.ok, s + 1)

/-- Engine recording the policies handed to `add_stream`; used to observe the
keys `postHandshake` installs. -/
def recordEngine : SrtpEngine (List srtp_policy) where
  protect := fun s buf size => ⟨.ok, s, buf, size⟩
  unprotect := fun s buf => ⟨.ok, s, buf, buf.length⟩
  add_stream := fun s p => (.ok, s ++ [p])

/-- Engine whose `protect` always reports a replay failure. -/
def replayFailEngine : SrtpEngine Unit where
  protect := fun _ buf size => ⟨.replay_fail, (), buf, size⟩
  unprotect := fun _ buf => ⟨.ok, (), buf, buf.length⟩
  add_stream := fun _ _ => (.ok, ())

/-- Engine whose `protect` always reports a generic failure with status 7. -/
def protectFailEngine : SrtpEngine Unit where
  protect := fun _ buf size => ⟨.fail 7, (), buf, size⟩
  unprotect := fun _ buf => ⟨.ok, (), buf, buf.length⟩
  add_stream := fun _ _ => (.ok, ())

/-- Engine whose `unprotect` rejects exactly the packets whose first byte is
20 (as a replay) and accepts all others unchanged. -/
def selEngine : SrtpEngine Unit where
  protect := fun _ buf size => ⟨.ok, (), buf, size⟩
  unprotect := fun _ buf =>
    match buf with
    | 20 :: _ => ⟨.replay_fail, (), buf, buf.length⟩
    | _ => ⟨.ok, (), buf, buf.length⟩
  add_stream := fun _ _ => (.ok, ())

/-- Export function returning `n` zero bytes, for any label and context. -/
def exportZeros : String → Option (List Nat) → Nat → Except Unit (List Nat) :=
  fun _ _ n => .ok (List.replicate n 0)

/-- Export function that always fails. -/
def exportFails : String → Option (List Nat) → Nat → Except Unit (List Nat) :=
  fun _ _ _ => .error ()

/-- Export function returning zero bytes only for a 60-byte request and
failing otherwise; agrees with `exportZeros` exactly at length 60. -/
def exportZerosOnly60 : String → Option (List Nat) → Nat → Except Unit (List Nat) :=
  fun _ _ n => if n = 60 then .ok (List.replicate n 0) else .error ()

/-! Theorems for the claims. -/

/-- C10: `sendMedia` invoked with a null message returns `false` immediately,
with no event emitted (no downstream send), no exception, and the transport
state unchanged — for every transport state, Ready included. -/
theorem sendMedia_null_returns_false {σ : Type} (E : SrtpEngine σ)
    (t : Transport σ) :
    sendMedia E t none = .ok (t, [], false) := rfl

/-- C4: `sendMedia` called while `mInitDone` is false returns `false` (no
exception), emits only a warning log — in particular no downstream send —
and leaves the transport state unchanged. -/
theorem sendMedia_before_keys_fails {σ : Type} (E : SrtpEngine σ)
    (sIn sOut : σ) (c : Bool) (msg : List Nat) :
    sendMedia E ⟨false, sIn, sOut, c⟩ (some msg) =
      .ok (⟨false, sIn, sOut, c⟩, [.logWarning], false) := rfl

/-- C5: when `mInitDone` is true and the backend `protect` succeeds,
`sendMedia` reserves `SRTP_MAX_TRAILER_LEN` bytes of trailer capacity,
invokes `protect` on the enlarged buffer, truncates the result to the length
`protect` returned, forwards exactly that packet downstream, and returns
`true`. -/
theorem sendMedia_ready_protects_and_sends {σ : Type} (E : SrtpEngine σ)
    (sIn sOut : σ) (c : Bool) (msg : List Nat)
    (s' : σ) (buf' : List Nat) (len' : Nat)
    (h : E.protect sOut (resizeMsg msg (msg.length + SRTP_MAX_TRAILER_LEN))
          msg.length = ⟨.ok, s', buf', len'⟩) :
    sendMedia E ⟨true, sIn, sOut, c⟩ (some msg) =
      .ok (⟨true, sIn, s', c⟩, [.outgoingSend (resizeMsg buf' len')], true) := by
  simp only [sendMedia, Bool.not_true, Bool.false_eq_true, if_false, h]

/-- Witness for C5 on a concrete engine and packet `[1, 2, 3]`. -/
theorem sendMedia_ready_protects_and_sends_witness :
    sendMedia unitEngine ⟨true, (), (), true⟩ (some [1, 2, 3]) =
      .ok (⟨true, (), (), true⟩,
           [.outgoingSend
              (resizeMsg (resizeMsg [1, 2, 3] ([1, 2, 3].length + SRTP_MAX_TRAILER_LEN))
                ([1, 2, 3].length + 10))], true) :=
  sendMedia_ready_protects_and_sends unitEngine () () true [1, 2, 3] ()
    (resizeMsg [1, 2, 3] ([1, 2, 3].length + SRTP_MAX_TRAILER_LEN))
    ([1, 2, 3].length + 10) rfl

/-- C7: every backend `protect` failure is fatal: `sendMedia` returns an
error (the source throws) — a replay status becomes the replay error, any
other status the generic protect error — and nothing is forwarded downstream
(the error carries no outgoing event). -/
theorem sendMedia_protect_failure_fatal {σ : Type} (E : SrtpEngine σ)
    (sIn sOut : σ) (c : Bool) (msg : List Nat)
    (s' : σ) (buf' : List Nat) (len' code : Nat) :
    (E.protect sOut (resizeMsg msg (msg.length + SRTP_MAX_TRAILER_LEN))
        msg.length = ⟨.replay_fail, s', buf', len'⟩ →
      sendMedia E ⟨true, sIn, sOut, c⟩ (some msg) = .error .srtpReplay)
    ∧ (E.protect sOut (resizeMsg msg (msg.length + SRTP_MAX_TRAILER_LEN))
        msg.length = ⟨.fail code, s', buf', len'⟩ →
      sendMedia E ⟨true, sIn, sOut, c⟩ (some msg) = .error (.srtpProtect code)) := by
  constructor
  · intro h
    simp only [sendMedia, Bool.not_true, Bool.false_eq_true, if_false, h]
  · intro h
    simp only [sendMedia, Bool.not_true, Bool.false_eq_true, if_false, h]

/-- Witness for C7: a replaying engine yields the replay error, a failing
engine the generic protect error, on the packet `[5]`. -/
theorem sendMedia_protect_failure_fatal_witness :
    sendMedia replayFailEngine ⟨true, (), (), true⟩ (some [5]) = .error .srtpReplay
    ∧ sendMedia protectFailEngine ⟨true, (), (), true⟩ (some [5]) =
        .error (.srtpProtect 7) :=
  ⟨(sendMedia_protect_failure_fatal replayFailEngine () () true [5] ()
      (resizeMsg [5] ([5].length + SRTP_MAX_TRAILER_LEN)) [5].length 0).1 rfl,
   (sendMedia_protect_failure_fatal protectFailEngine () () true [5] ()
      (resizeMsg [5] ([5].length + SRTP_MAX_TRAILER_LEN)) [5].length 7).2 rfl⟩

/-- C2: demultiplexing of inbound datagrams. While `mInitDone` is false every
packet (empty included) is routed to the DTLS path. While `mInitDone` is
true: the empty packet is dropped with no event; a first byte in [128,191]
routes to the DTLS path; a first byte in [20,63] routes to the media-decrypt
branch; any other first byte drops the packet with only a warning log — no
callback, no DTLS routing, no error, state unchanged. -/
theorem incoming_demultiplexes {σ : Type} (E : SrtpEngine σ)
    (sIn sOut : σ) (c : Bool) (p : List Nat) :
    (incoming E ⟨false, sIn, sOut, c⟩ p = (⟨false, sIn, sOut, c⟩, [.dtlsIncoming p]))
    ∧ (incoming E ⟨true, sIn, sOut, c⟩ [] = (⟨true, sIn, sOut, c⟩, []))
    ∧ (∀ b rest, p = b :: rest →
        ((128 ≤ b ∧ b ≤ 191) →
          incoming E ⟨true, sIn, sOut, c⟩ p = (⟨true, sIn, sOut, c⟩, [.dtlsIncoming p]))
        ∧ ((20 ≤ b ∧ b ≤ 63) →
          incoming E ⟨true, sIn, sOut, c⟩ p = srtpRecvBranch E ⟨true, sIn, sOut, c⟩ p)
        ∧ (¬(128 ≤ b ∧ b ≤ 191) → ¬(20 ≤ b ∧ b ≤ 63) →
          incoming E ⟨true, sIn, sOut, c⟩ p = (⟨true, sIn, sOut, c⟩, [.logWarning]))) := by
  refine ⟨rfl, rfl, ?_⟩
  rintro b rest rfl
  refine ⟨fun hb => ?_, fun hb => ?_, fun hb hb' => ?_⟩
  · simp only [incoming, Bool.not_true, Bool.false_eq_true, if_false, if_pos hb]
  · have hnot : ¬(128 ≤ b ∧ b ≤ 191) := by
      rintro ⟨h128, _⟩; exact absurd (le_trans h128 hb.2) (by decide)
    simp only [incoming, Bool.not_true, Bool.false_eq_true, if_false,
      if_neg hnot, if_pos hb]
  · simp only [incoming, Bool.not_true, Bool.false_eq_true, if_false,
      if_neg hb, if_neg hb']

/-- Witness for C2 at concrete packets: bypass of `[200]` before keys,
DTLS routing of `[150]`, media routing of `[30, 9]`, and silent drop of
`[99]` after keys. -/
theorem incoming_demultiplexes_witness :
    (incoming unitEngine ⟨false, (), (), true⟩ [200] =
      (⟨false, (), (), true⟩, [.dtlsIncoming [200]]))
    ∧ (incoming unitEngine ⟨true, (), (), true⟩ [150] =
      (⟨true, (), (), true⟩, [.dtlsIncoming [150]]))
    ∧ (incoming unitEngine ⟨true, (), (), true⟩ [30, 9] =
      srtpRecvBranch unitEngine ⟨true, (), (), true⟩ [30, 9])
    ∧ (incoming unitEngine ⟨true, (), (), true⟩ [99] =
      (⟨true, (), (), true⟩, [.logWarning])) :=
  ⟨(incoming_demultiplexes unitEngine () () true [200]).1,
   ((incoming_demultiplexes unitEngine () () true [150]).2.2 150 [] rfl).1 (by decide),
   ((incoming_demultiplexes unitEngine () () true [30, 9]).2.2 30 [9] rfl).2.1 (by decide),
   ((incoming_demultiplexes unitEngine () () true [99]).2.2 99 [] rfl).2.2
     (by decide) (by decide)⟩

/-- C6: when `unprotect` rejects an inbound media packet (any non-ok status,
replay and authentication failures included), `incoming` returns normally
with only a warning log — no callback, no exception — keeping `mInitDone`
and the outbound session intact; and on the resulting transport a subsequent
packet that `unprotect` accepts is delivered to the receive callback as
usual. -/
theorem incoming_unprotect_failure_isolated {σ : Type} (E : SrtpEngine σ)
    (sIn sOut : σ) (c : Bool) (b : Nat) (rest : List Nat)
    (h20 : 20 ≤ b) (h63 : b ≤ 63)
    (hfail : (E.unprotect sIn (b :: rest)).status ≠ .ok) :
    (incoming E ⟨true, sIn, sOut, c⟩ (b :: rest) =
      (⟨true, (E.unprotect sIn (b :: rest)).sess, sOut, c⟩, [.logWarning]))
    ∧ (∀ b2 rest2 s2 buf2 len2, 20 ≤ b2 → b2 ≤ 63 →
        E.unprotect (E.unprotect sIn (b :: rest)).sess (b2 :: rest2) =
          ⟨.ok, s2, buf2, len2⟩ →
        incoming E ⟨true, (E.unprotect sIn (b :: rest)).sess, sOut, c⟩ (b2 :: rest2) =
          (⟨true, s2, sOut, c⟩, [.srtpRecvCallback (resizeMsg buf2 len2)])) := by
  have hnot : ¬(128 ≤ b ∧ b ≤ 191) := by
    rintro ⟨h128, _⟩; exact absurd (le_trans h128 h63) (by decide)
  constructor
  · simp only [incoming, Bool.not_true, Bool.false_eq_true, if_false,
      if_neg hnot, if_pos (And.intro h20 h63), srtpRecvBranch]
  · intro b2 rest2 s2 buf2 len2 h20' h63' hok
    have hnot2 : ¬(128 ≤ b2 ∧ b2 ≤ 191) := by
      rintro ⟨h128, _⟩; exact absurd (le_trans h128 h63') (by decide)
    simp only [incoming, Bool.not_true, Bool.false_eq_true, if_false,
      if_neg hnot2, if_pos (And.intro h20' h63'), srtpRecvBranch, hok]

/-- Witness for C6: with an engine rejecting packets whose first byte is 20,
the packet `[20]` is dropped with a log and the subsequent packet `[21]` is
still delivered to the callback. -/
theorem incoming_unprotect_failure_isolated_witness :
    (incoming selEngine ⟨true, (), (), false⟩ [20] =
      (⟨true, (), (), false⟩, [.logWarning]))
    ∧ (incoming selEngine ⟨true, (), (), false⟩ [21] =
      (⟨true, (), (), false⟩, [.srtpRecvCallback (resizeMsg [21] 1)])) :=
  ⟨(incoming_unprotect_failure_isolated selEngine () () false 20 []
      (by decide) (by decide) (by decide)).1,
   (incoming_unprotect_failure_isolated selEngine () () false 20 []
      (by decide) (by decide) (by decide)).2 21 [] () [21] 1
      (by decide) (by decide) rfl⟩

/-- Helper: whenever `postHandshake` returns a transport, that transport has
`mInitDone = true` (either it was already done, or the success path just set it). -/
lemma postHandshake_ok_mInitDone {σ : Type} (E : SrtpEngine σ)
    (f : String → Option (List Nat) → Nat → Except Unit (List Nat))
    (t t' : Transport σ) (h : postHandshake E f t = .ok t') :
    t'.mInitDone = true := by
  unfold postHandshake at h
  split at h
  · rename_i ht
    cases h
    exact ht
  · split at h
    · exact absurd h (by simp)
    · dsimp only at h
      split at h
      · split at h
        · cases h
          rfl
        · exact absurd h (by simp)
      · exact absurd h (by simp)

/-- C8: `postHandshake` is idempotent. A call on an already-initialized
transport returns it unchanged; any successful call leaves the transport
with `mInitDone = true`; and after any successful call, a second call — even
with a different engine and a different export function — is a no-op
returning the same transport, so key derivation runs exactly once. -/
theorem postHandshake_idempotent :
    (∀ (σ : Type) (E : SrtpEngine σ) f (sIn sOut : σ) (c : Bool),
      postHandshake E f ⟨true, sIn, sOut, c⟩ = .ok ⟨true, sIn, sOut, c⟩)
    ∧ (∀ (σ : Type) (E : SrtpEngine σ) f (t t' : Transport σ),
      postHandshake E f t = .ok t' → t'.mInitDone = true)
    ∧ (∀ (σ : Type) (E E' : SrtpEngine σ) f f' (t t' : Transport σ),
      postHandshake E f t = .ok t' → postHandshake E' f' t' = .ok t') := by
  refine ⟨fun σ E f sIn sOut c => rfl,
          fun σ E f t t' h => postHandshake_ok_mInitDone E f t t' h,
          fun σ E E' f f' t t' h => ?_⟩
  have hd : t'.mInitDone = true := postHandshake_ok_mInitDone E f t t' h
  simp only [postHandshake, hd, if_true]

/-- Witness for C8: a first call derives keys (adding one stream to each
session); a second call with an export function that would fail is a no-op. -/
theorem postHandshake_idempotent_witness :
    postHandshake countEngine exportFails ⟨true, 1, 1, true⟩ =
      .ok ⟨true, 1, 1, true⟩ :=
  postHandshake_idempotent.2.2 Nat countEngine countEngine exportZeros exportFails
    ⟨false, 0, 0, true⟩ ⟨true, 1, 1, true⟩ rfl

/-- C9: the export contract of key derivation. `materialLen` is
2 × (16 + 14) = 60; the result of `postHandshake` depends only on the export
function's value at the fixed label `EXTRACTOR-dtls_srtp`, absent context and
length `materialLen` (so exactly that request is made); an export failure is
fatal (the OpenSSL and GnuTLS branches both return the export error, so the
transport never becomes Ready); and on the GnuTLS branch a transport can only
become Ready when every key part has length 16 and every salt part length 14
— any mismatch is fatal. -/
theorem postHandshake_export_contract :
    materialLen = 2 * (16 + 14)
    ∧ (∀ (σ : Type) (E : SrtpEngine σ) f g (t : Transport σ),
        f "EXTRACTOR-dtls_srtp" none materialLen =
          g "EXTRACTOR-dtls_srtp" none materialLen →
        postHandshake E f t = postHandshake E g t)
    ∧ (∀ (σ : Type) (E : SrtpEngine σ) f (sIn sOut : σ) (c : Bool),
        f "EXTRACTOR-dtls_srtp" none materialLen = .error () →
        postHandshake E f ⟨false, sIn, sOut, c⟩ = .error .srtpExport)
    ∧ (∀ (σ : Type) (E : SrtpEngine σ) (sIn sOut : σ) (c : Bool),
        postHandshakeGnutls E (.error ()) ⟨false, sIn, sOut, c⟩ = .error .srtpExport)
    ∧ (∀ (σ : Type) (E : SrtpEngine σ) (ck cs sk ss : List Nat)
        (sIn sOut : σ) (c : Bool) (t' : Transport σ),
        postHandshakeGnutls E (.ok (ck, cs, sk, ss)) ⟨false, sIn, sOut, c⟩ = .ok t' →
        ck.length = 16 ∧ cs.length = 14 ∧ sk.length = 16 ∧ ss.length = 14) := by
  refine ⟨rfl, fun σ E f g t hfg => ?_, fun σ E f sIn sOut c hf => ?_,
          fun σ E sIn sOut c => rfl, fun σ E ck cs sk ss sIn sOut c t' h => ?_⟩
  · simp only [postHandshake, hfg]
  · simp only [postHandshake, hf, Bool.false_eq_true, if_false]
  · unfold postHandshakeGnutls at h
    dsimp only at h
    repeat' split at h
    all_goals try contradiction
    all_goals simp only [SRTP_AES_128_KEY_LEN, SRTP_SALT_LEN] at *
    all_goals exact ⟨by omega, by omega, by omega, by omega⟩

/-- Witness for C9: the dependence on the single export call point, a
concrete failing export aborting with the export error, and a concrete
GnuTLS-branch success whose parts have the required lengths. -/
theorem postHandshake_export_contract_witness :
    (postHandshake unitEngine exportZeros ⟨false, (), (), true⟩ =
      postHandshake unitEngine exportZerosOnly60 ⟨false, (), (), true⟩)
    ∧ postHandshake unitEngine exportFails ⟨false, (), (), true⟩ = .error .srtpExport
    ∧ ((List.replicate 16 0).length = 16 ∧ (List.replicate 14 0).length = 14
       ∧ (List.replicate 16 0).length = 16 ∧ (List.replicate 14 0).length = 14) :=
  ⟨postHandshake_export_contract.2.1 Unit unitEngine exportZeros exportZerosOnly60
      ⟨false, (), (), true⟩ rfl,
   postHandshake_export_contract.2.2.1 Unit unitEngine exportFails () () true rfl,
   postHandshake_export_contract.2.2.2.2 Nat countEngine
      (List.replicate 16 0) (List.replicate 14 0)
      (List.replicate 16 0) (List.replicate 14 0)
      0 0 false ⟨true, 1, 1, false⟩ rfl⟩

/-- C3: role assignment and symmetry. For any exported material, the
initiator's (client's) outbound session key equals the responder's inbound
session key and vice versa; and `postHandshake` installs exactly the remote
role's session key on the inbound session and the local role's on the
outbound session (observed through a policy-recording engine). -/
theorem postHandshake_role_symmetry (m : List Nat) (c : Bool) :
    outboundSessionKey true m = inboundSessionKey false m
    ∧ outboundSessionKey false m = inboundSessionKey true m
    ∧ postHandshake recordEngine (fun _ _ _ => .ok m) ⟨false, [], [], c⟩ =
        .ok ⟨true, [⟨.anyInbound, inboundSessionKey c m⟩],
                   [⟨.anyOutbound, outboundSessionKey c m⟩], c⟩ :=
  ⟨rfl, rfl, rfl⟩

/-- C1: the OpenSSL-branch slicing does not follow the canonical
`initiator_key | responder_key | initiator_salt | responder_salt` layout.
On the fixture material whose i-th byte is i, the code's initiator
(client) session key is bytes [0,30) — key at [0,16) and salt at [16,30) —
whereas the canonical layout prescribes key at [0,16) and salt at [32,46);
likewise the responder key diverges. -/
theorem slicing_diverges_from_canonical_layout :
    clientSessionKey (List.range 60) = (List.range 60).take 30
    ∧ clientSessionKey (List.range 60) ≠ specInitiatorSessionKey (List.range 60)
    ∧ serverSessionKey (List.range 60) ≠ specResponderSessionKey (List.range 60) := by
  decide

end DtlsSrtp
